import Mathlib

/-!
Shallow embedding of the `amazon-app-api` product catalog API
(`src/app/core/models.py`, `src/app/product/serializers.py`,
`src/app/product/views.py`, `src/app/product/urls.py`).

Entity rows are records over `Nat` ids; the relational store is a record of
lists.  Request handlers are state transformers `Store → … → HttpResponse × Store`;
a Python exception escaping a handler (e.g. `ValueError` from `int()`) is the
`serverError` response.  Django `DecimalField(max_digits=5, decimal_places=2)`
prices are integers scaled by 100 (cents).
-/

/-- Row of `core.models.Tag` and of `core.models.Category`, which share the same columns:
`name : CharField(max_length=255)` and `user : ForeignKey(AUTH_USER_MODEL)`.
One record type plays both roles, mirroring `BaseProductAttrViewset` which
handles both uniformly. -/
structure AttrRow where
  id : Nat
  name : String
  user : Nat
deriving Repr, DecidableEq

/-- Row of `core.models.Product`: owning user, title, `time_minutes : IntegerField`,
`price : DecimalField(5,2)` (stored as cents), `link : CharField(blank=True)`,
`categories : ForeignKey(Category, null=True)`, `tags : ManyToManyField(Tag)`,
`image : ImageField(null=True)` (stored path). -/
structure Product where
  id : Nat
  user : Nat
  title : String
  time_minutes : Int
  price : Int
  link : String
  categories : Option Nat
  tags : List Nat
  image : Option String
deriving Repr, DecidableEq

/-- The relational store: the Tag, Category and Product tables. -/
structure Store where
  tags : List AttrRow
  categories : List AttrRow
  products : List Product
deriving Repr, DecidableEq

/-- HTTP outcomes used by the handlers. `serverError` stands for an unhandled
exception (5xx); `unauthorized` is DRF 401; `notFound` is 404;
`badRequest` carries the per-field error set of a 400. -/
inductive HttpResponse (α : Type) where
  | ok (data : α)
  | created (data : α)
  | badRequest (errors : List (String × String))
  | unauthorized
  | notFound
  | serverError
deriving Repr, DecidableEq

/-- Strip leading and trailing whitespace, as Python `int(s)` does before
parsing.  Characters are used directly so that everything kernel-reduces. -/
def trimChars (l : List Char) : List Char :=
  ((l.dropWhile Char.isWhitespace).reverse.dropWhile Char.isWhitespace).reverse

/-- Python `str.split(',')`: every comma separates two (possibly empty)
pieces, so `"".split(',') == ['']` and `"1,,2".split(',') == ['1','','2']`. -/
def splitOnComma : List Char → List (List Char)
  | [] => [[]]
  | c :: cs =>
    match splitOnComma cs with
    | [] => [[c]]
    | r :: rs => if c = ',' then [] :: r :: rs else (c :: r) :: rs

/-- Python `int(s)`: strips whitespace, accepts an optional sign followed by
one or more decimal digits; raises `ValueError` (here: `none`) otherwise. -/
def pyIntChars? (l : List Char) : Option Int :=
  let t := trimChars l
  let (sign, digits) :=
    match t with
    | '-' :: rest => ((-1 : Int), rest)
    | '+' :: rest => ((1 : Int), rest)
    | _ => ((1 : Int), t)
  if digits = [] then none
  else if digits.all Char.isDigit then
    some (sign * (digits.foldl (fun acc c => 10 * acc + (c.toNat - 48)) (0 : Nat) : Nat))
  else none

/-- Python `int` applied to a string value. -/
def pyInt? (s : String) : Option Int :=
  pyIntChars? s.data

/-- Runs `pyIntChars?` over the split pieces, failing as a whole if any piece
fails — the comprehension `[int(str_id) for str_id in qs.split(',')]` raises
on the first malformed element, so no partial list is ever produced. -/
def int_list? : List (List Char) → Option (List Int)
  | [] => some []
  | x :: xs =>
    match pyIntChars? x, int_list? xs with
    | some i, some rest => some (i :: rest)
    | _, _ => none

/-- Embeds `ProductViewset._params_to_ints`: split the query string on commas and
convert each piece with `int`. -/
def params_to_ints (qs : String) : Option (List Int) :=
  int_list? (splitOnComma qs.data)

/-- Python truthiness of `request.query_params.get(...)`: an absent parameter
(`None`) and the empty string are both falsy, so `if tags:` skips the filter
for both. -/
def truthyParam (p : Option String) : Option String :=
  match p with
  | some s => if s = "" then none else some s
  | none => none

/-- Embeds `order_by('-name')`: descending lexicographic order on names.  The
comparison is on the character list of the name (`String.le_iff_toList_le`
makes this the string order itself, in a kernel-computable form). -/
def nameDesc (a b : AttrRow) : Prop :=
  b.name.data ≤ a.name.data

instance : DecidableRel nameDesc :=
  fun a b => inferInstanceAs (Decidable (b.name.data ≤ a.name.data))

instance : IsTotal AttrRow nameDesc :=
  ⟨fun a b => le_total b.name.data a.name.data⟩

instance : IsTrans AttrRow nameDesc :=
  ⟨fun _ _ _ hab hbc => le_trans hbc hab⟩

/-- Wire payload for `TagSerializer` / `CategorySerializer`
(`fields = ('id', 'name')`).  `name` is `CharField(max_length=255)`:
required, blank refused.  A `user` key in the request payload is not among
the serializer's fields, so it is carried here only to show it is ignored. -/
structure AttrPayload where
  name : Option String
  user : Option Nat
deriving Repr, DecidableEq

/-- Validation of `TagSerializer`/`CategorySerializer`: `name` must be present,
non-blank and at most 255 characters; on failure DRF answers with the
per-field error set. -/
def validate_attr (p : AttrPayload) : Except (List (String × String)) String :=
  match p.name with
  | none => .error [("name", "This field is required.")]
  | some n =>
    if n = "" then .error [("name", "This field may not be blank.")]
    else if n.length > 255 then
      .error [("name", "Ensure this field has no more than 255 characters.")]
    else .ok n

/-- Autoincrement primary key: one more than the largest id in the table. -/
def next_id (ids : List Nat) : Nat :=
  ids.foldr max 0 + 1

/-- Modelled from the spec: `product.permissions.IsSupplierOrReadOnly` is
imported by `views.py` but `permissions.py` is not in the source tree.  The
spec states for the tag and category endpoints that "Unauthenticated calls
fail with an authorization error (HTTP 401-equivalent)", so the permission
demands an authenticated principal. -/
def isSupplierOrReadOnly (requestUser : Option Nat) : Bool :=
  requestUser.isSome

namespace BaseProductAttrViewset

/-- Embeds `BaseProductAttrViewset.get_queryset`: start from the table, on
`assigned_only` join against the products referencing the row (the reverse
relation produces one row per referencing product, hence the duplicates that
`.distinct()` must collapse), then keep the caller's rows, order by name
descending and de-duplicate.  `referenced r p` is the reverse relation:
for tags `r.id ∈ p.tags`, for categories `p.categories = some r.id`. -/
def get_queryset (rows : List AttrRow) (products : List Product)
    (referenced : AttrRow → Product → Bool) (userId : Nat)
    (assigned_only : Bool) : List AttrRow :=
  let queryset :=
    if assigned_only then
      rows.flatMap (fun r => (products.filter (referenced r)).map (fun _ => r))
    else rows
  (List.insertionSort nameDesc (queryset.filter (fun r => r.user == userId))).dedup

/-- List handler of the base viewset.  Authentication is `TokenAuthentication`
with the (spec-modelled) `IsSupplierOrReadOnly` permission; the
`assigned_only` query parameter goes through
`bool(int(request.query_params.get('assigned_only', 0)))`, whose `int` can
raise (`serverError`). -/
def list (rows : List AttrRow) (products : List Product)
    (referenced : AttrRow → Product → Bool) (requestUser : Option Nat)
    (assignedP : Option String) : HttpResponse (List AttrRow) :=
  match requestUser with
  | none => .unauthorized
  | some u =>
    match pyInt? (assignedP.getD "0") with
    | none => .serverError
    | some n =>
      .ok (get_queryset rows products referenced u (n != 0))

/-- Create handler of the base viewset: validate with the attribute
serializer, then `perform_create` saves with `user=self.request.user`.
Returns the response together with the updated table. -/
def create (rows : List AttrRow) (requestUser : Option Nat)
    (payload : AttrPayload) : HttpResponse AttrRow × List AttrRow :=
  match requestUser with
  | none => (.unauthorized, rows)
  | some u =>
    match validate_attr payload with
    | .error errs => (.badRequest errs, rows)
    | .ok n =>
      let row : AttrRow := ⟨next_id (rows.map (·.id)), n, u⟩
      (.created row, rows ++ [row])

end BaseProductAttrViewset

/-- The reverse relation `product__isnull=False` for tags: a product
references the tag through the `tags` many-to-many. -/
def tagReferenced (r : AttrRow) (p : Product) : Bool :=
  p.tags.contains r.id

/-- The reverse relation for categories: a product references the category
through its `categories` foreign key. -/
def categoryReferenced (r : AttrRow) (p : Product) : Bool :=
  p.categories == some r.id

namespace TagViewSet

/-- List of `TagViewSet`: the base viewset over the Tag table. -/
def list (store : Store) (requestUser : Option Nat) (assignedP : Option String) :
    HttpResponse (List AttrRow) :=
  BaseProductAttrViewset.list store.tags store.products tagReferenced requestUser assignedP

/-- Create of `TagViewSet`: the base viewset create over the Tag table. -/
def create (store : Store) (requestUser : Option Nat) (payload : AttrPayload) :
    HttpResponse AttrRow × Store :=
  let (resp, rows) := BaseProductAttrViewset.create store.tags requestUser payload
  (resp, {store with tags := rows})

end TagViewSet

namespace CategoryViewSet

/-- List of `CategoryViewSet`: the base viewset over the Category table. -/
def list (store : Store) (requestUser : Option Nat) (assignedP : Option String) :
    HttpResponse (List AttrRow) :=
  BaseProductAttrViewset.list store.categories store.products categoryReferenced
    requestUser assignedP

/-- Create of `CategoryViewSet`: the base viewset create over the Category table. -/
def create (store : Store) (requestUser : Option Nat) (payload : AttrPayload) :
    HttpResponse AttrRow × Store :=
  let (resp, rows) := BaseProductAttrViewset.create store.categories requestUser payload
  (resp, {store with categories := rows})

end CategoryViewSet

/-- Wire payload for `ProductSerializer`
(`fields = ('id', 'title', 'categories', 'tags', 'time_minutes', 'price',
'link')`).  `none` means the key is absent from the request.  A `user` key is
not among the serializer's fields, so it is carried here only to show it is
ignored.  Prices are cents (`DecimalField(max_digits=5, decimal_places=2)`). -/
structure ProductPayload where
  title : Option String
  time_minutes : Option Int
  price : Option Int
  link : Option String
  categories : Option Nat
  tags : Option (List Nat)
  user : Option Nat
deriving Repr, DecidableEq

/-- The serializer's `validated_data` for a product: a field is `none` when
it was not part of the validated payload (possible only on partial update,
except for `link`, which is `required=False` because the model field has
`blank=True`). -/
structure VProduct where
  title : Option String
  time_minutes : Option Int
  price : Option Int
  link : Option String
  categories : Option Nat
  tags : Option (List Nat)
deriving Repr, DecidableEq

/-- Field `title`: `CharField(max_length=255)` — required unless the update is
partial; blank refused. -/
def validate_title (v : Option String) (isPatch : Bool) :
    Except (String × String) (Option String) :=
  match v with
  | none =>
    if isPatch then .ok none else .error ("title", "This field is required.")
  | some t =>
    if t = "" then .error ("title", "This field may not be blank.")
    else if t.length > 255 then
      .error ("title", "Ensure this field has no more than 255 characters.")
    else .ok (some t)

/-- Field `time_minutes`: `IntegerField` — required unless the update is partial. -/
def validate_time_minutes (v : Option Int) (isPatch : Bool) :
    Except (String × String) (Option Int) :=
  match v with
  | none =>
    if isPatch then .ok none
    else .error ("time_minutes", "This field is required.")
  | some m => .ok (some m)

/-- Field `price`: `DecimalField(max_digits=5, decimal_places=2)` — required unless
the update is partial; at most 5 digits in total, i.e. at most 999.99
(99999 cents) in magnitude. -/
def validate_price (v : Option Int) (isPatch : Bool) :
    Except (String × String) (Option Int) :=
  match v with
  | none =>
    if isPatch then .ok none else .error ("price", "This field is required.")
  | some c =>
    if c.natAbs > 99999 then
      .error ("price", "Ensure that there are no more than 5 digits in total.")
    else .ok (some c)

/-- Field `link`: `CharField(max_length=255, blank=True)`, hence `required=False`:
an absent key simply stays out of `validated_data`, even on full update. -/
def validate_link (v : Option String) :
    Except (String × String) (Option String) :=
  match v with
  | none => .ok none
  | some l =>
    if l.length > 255 then
      .error ("link", "Ensure this field has no more than 255 characters.")
    else .ok (some l)

/-- Field `categories`: `PrimaryKeyRelatedField(queryset=Category.objects.all())` —
declared with neither `required=False` nor `allow_null`, so the key is
required unless the update is partial, and must be the pk of an existing
category (any owner's: the queryset is unscoped). -/
def validate_categories (table : List AttrRow) (v : Option Nat) (isPatch : Bool) :
    Except (String × String) (Option Nat) :=
  match v with
  | none =>
    if isPatch then .ok none
    else .error ("categories", "This field is required.")
  | some cid =>
    if table.any (fun c => c.id == cid) then .ok (some cid)
    else .error ("categories", "Invalid pk - object does not exist.")

/-- Field `tags`: `PrimaryKeyRelatedField(many=True, queryset=Tag.objects.all())`.
For the HTML/form input the API is exercised with, a `ManyRelatedField`
absent from a non-partial payload reads as the empty list (`getlist` on a
missing key), so a full update without a `tags` key validates to `[]`; on a
partial update an absent key stays out of `validated_data`.  Every supplied
pk must exist in the Tag table. -/
def validate_tags (table : List AttrRow) (v : Option (List Nat)) (isPatch : Bool) :
    Except (String × String) (Option (List Nat)) :=
  match v with
  | none =>
    if isPatch then .ok none else .ok (some [])
  | some ids =>
    if ids.all (fun tid => table.any (fun t => t.id == tid)) then .ok (some ids)
    else .error ("tags", "Invalid pk - object does not exist.")

/-- The error contribution of one field check. -/
def fieldErrs {α : Type} : Except (String × String) α → List (String × String)
  | .error e => [e]
  | .ok _ => []

/-- Embeds `ProductSerializer.is_valid`: run every field check, collecting the full
per-field error set; succeed only when every field succeeds. -/
def validate_product (store : Store) (p : ProductPayload) (isPatch : Bool) :
    Except (List (String × String)) VProduct :=
  match validate_title p.title isPatch, validate_time_minutes p.time_minutes isPatch,
      validate_price p.price isPatch, validate_link p.link,
      validate_categories store.categories p.categories isPatch,
      validate_tags store.tags p.tags isPatch with
  | .ok a, .ok b, .ok c, .ok d, .ok e, .ok f => .ok ⟨a, b, c, d, e, f⟩
  | t, tm, pr, lk, ct, tg =>
    .error (fieldErrs t ++ fieldErrs tm ++ fieldErrs pr ++ fieldErrs lk ++
      fieldErrs ct ++ fieldErrs tg)

namespace ProductSerializer

/-- Embeds `ModelSerializer.update`: set exactly the fields present in
`validated_data`, leave every other column — the owning `user` included —
untouched. -/
def update (p : Product) (v : VProduct) : Product :=
  { p with
    title := v.title.getD p.title
    time_minutes := v.time_minutes.getD p.time_minutes
    price := v.price.getD p.price
    link := v.link.getD p.link
    categories := match v.categories with
      | some c => some c
      | none => p.categories
    tags := v.tags.getD p.tags }

/-- Embeds `ModelSerializer.create` with the `user=...` kwarg from
`perform_create`: a fresh row owned by the caller; `link` defaults to the
model's `''`, `categories` to `NULL`, `image` to `NULL`. -/
def create (store : Store) (u : Nat) (v : VProduct) : Product :=
  { id := next_id (store.products.map (·.id))
    user := u
    title := v.title.getD ""
    time_minutes := v.time_minutes.getD 0
    price := v.price.getD 0
    link := v.link.getD ""
    categories := v.categories
    tags := v.tags.getD []
    image := none }

end ProductSerializer

namespace ProductViewset

/-- Parse one filter parameter: a falsy parameter means "no filter"
(`some none`), a truthy one is split and converted, and a conversion failure
is the escaping `ValueError` (`none`). -/
def parseParam (p : Option String) : Option (Option (List Int)) :=
  match truthyParam p with
  | none => some none
  | some s => (params_to_ints s).map some

/-- The queryset chain of `ProductViewset.get_queryset` once the parameters
are parsed: the `tags` filter when given (a product matches when one of its
tags is among the ids), then the `categories` filter when given (the
product's foreign key is among the ids — a `NULL` key matches nothing),
then the restriction to the authenticated caller's rows. -/
def apply_filters (products : List Product)
    (tag_ids? category_ids? : Option (List Int)) (userId : Nat) : List Product :=
  let qs1 :=
    match tag_ids? with
    | none => products
    | some tag_ids =>
      products.filter (fun p => p.tags.any (fun t => tag_ids.contains (t : Int)))
  let qs2 :=
    match category_ids? with
    | none => qs1
    | some category_ids =>
      qs1.filter (fun p =>
        match p.categories with
        | some c => category_ids.contains (c : Int)
        | none => false)
  qs2.filter (fun p => p.user == userId)

/-- Embeds `ProductViewset.get_queryset` (the ownership-gated route registered at
`myproducts`): parse both parameters — either `ValueError` escapes the
handler (`none`) — and run the filter chain. -/
def get_queryset (store : Store) (userId : Nat)
    (tagsP categoriesP : Option String) : Option (List Product) :=
  match parseParam tagsP, parseParam categoriesP with
  | some tag_ids?, some category_ids? =>
    some (apply_filters store.products tag_ids? category_ids? userId)
  | _, _ => none

/-- List handler: `TokenAuthentication` + `IsAuthenticated` (401 without a
principal), then the filtered, ownership-scoped queryset; an unhandled
`ValueError` from a malformed filter id is a 5xx. -/
def list (store : Store) (requestUser : Option Nat)
    (tagsP categoriesP : Option String) : HttpResponse (List Product) :=
  match requestUser with
  | none => .unauthorized
  | some u =>
    match get_queryset store u tagsP categoriesP with
    | none => .serverError
    | some qs => .ok qs

/-- Detail handler: DRF `get_object` looks the pk up inside `get_queryset()`,
so another owner's id is a plain 404. -/
def retrieve (store : Store) (requestUser : Option Nat) (pk : Nat) :
    HttpResponse Product :=
  match requestUser with
  | none => .unauthorized
  | some u =>
    match get_queryset store u none none with
    | none => .serverError
    | some qs =>
      match qs.find? (fun p => p.id == pk) with
      | some p => .ok p
      | none => .notFound

/-- Create handler: validate as a non-partial payload, then `perform_create`
saves with `user=self.request.user`. -/
def create (store : Store) (requestUser : Option Nat) (payload : ProductPayload) :
    HttpResponse Product × Store :=
  match requestUser with
  | none => (.unauthorized, store)
  | some u =>
    match validate_product store payload false with
    | .error errs => (.badRequest errs, store)
    | .ok v =>
      let row := ProductSerializer.create store u v
      (.created row, {store with products := store.products ++ [row]})

/-- Update handler (`PUT` when `isPatch = false`, `PATCH` when `true`): find
the row inside the ownership-scoped queryset (404 otherwise), validate, then
apply `ModelSerializer.update` and persist the modified row. -/
def update (store : Store) (requestUser : Option Nat) (pk : Nat)
    (payload : ProductPayload) (isPatch : Bool) : HttpResponse Product × Store :=
  match requestUser with
  | none => (.unauthorized, store)
  | some u =>
    match get_queryset store u none none with
    | none => (.serverError, store)
    | some qs =>
      match qs.find? (fun p => p.id == pk) with
      | none => (.notFound, store)
      | some p =>
        match validate_product store payload isPatch with
        | .error errs => (.badRequest errs, store)
        | .ok v =>
          let p' := ProductSerializer.update p v
          (.ok p',
            {store with products :=
              store.products.map (fun q => if q.id == pk then p' else q)})

end ProductViewset

namespace MyProductViewset

/-- Embeds `MyProductViewset` (the route registered at `products`): a
`ReadOnlyModelViewSet` whose queryset is `Product.objects.all()` with no
`get_queryset` override — no ownership restriction at all.  The request's
principal is taken and ignored. -/
def get_queryset (store : Store) (_requestUser : Option Nat) : List Product :=
  store.products

/-- List handler of the read-only route: every product of every user. -/
def list (store : Store) (requestUser : Option Nat) : HttpResponse (List Product) :=
  .ok (get_queryset store requestUser)

/-- Detail handler of the read-only route: any product by id, whoever owns
it. -/
def retrieve (store : Store) (requestUser : Option Nat) (pk : Nat) :
    HttpResponse Product :=
  match (get_queryset store requestUser).find? (fun p => p.id == pk) with
  | some p => .ok p
  | none => .notFound

end MyProductViewset

/-- The `urls.py` router registrations: route name to viewset, in registration
order — `tags`, `categories`, `myproducts` (the ownership-gated
`ProductViewset`), `products` (the unscoped read-only `MyProductViewset`). -/
def routerRegistrations : List (String × String) :=
  [("tags", "TagViewSet"), ("categories", "CategoryViewSet"),
   ("myproducts", "ProductViewset"), ("products", "MyProductViewset")]

/-- Concrete store used to witness the claims: two users (1 and 2), each
owning a tag, a category and a product; product 1 carries tag 1 and
category 1, product 2 carries tag 2 and category 2, product 3 carries no
tag and no category. -/
def wStore : Store :=
  { tags := [⟨1, "Vegan", 1⟩, ⟨2, "Zest", 2⟩, ⟨3, "Unused", 1⟩]
    categories := [⟨1, "Drinks", 1⟩, ⟨2, "Food", 2⟩]
    products :=
      [⟨1, 1, "Pasta", 10, 500, "", some 1, [1], none⟩,
       ⟨2, 2, "Soup", 5, 300, "", some 2, [2], none⟩,
       ⟨3, 1, "Bread", 3, 150, "", none, [], none⟩] }

/-- The store whose Product table is empty, for the creation witnesses. -/
def wStoreEmptyProducts : Store :=
  { tags := [⟨1, "Vegan", 1⟩], categories := [⟨1, "Drinks", 1⟩], products := [] }

/-- The payload of the repository's own `test_create_basic_product`: a valid
title, time and price, and no `categories` key. -/
def payloadC8 : ProductPayload :=
  { title := some "Chocolate Cheescake", time_minutes := some 30,
    price := some 500, link := none, categories := none, tags := none,
    user := none }

/-- A tag/category payload whose required `name` is the empty string. -/
def apBlank : AttrPayload := ⟨some "", none⟩

/-- A product payload whose required `title` is the empty string (the other
fields are valid against `wStore`). -/
def ppBlankTitle : ProductPayload :=
  { title := some "", time_minutes := some 30, price := some 500,
    link := none, categories := some 1, tags := none, user := none }

/-- A valid tag/category payload that also smuggles a `user` key (99). -/
def apSmuggle : AttrPayload := ⟨some "Dinner", some 99⟩

/-- A valid product payload that also smuggles a `user` key (99). -/
def ppSmuggle : ProductPayload :=
  { title := some "Cake", time_minutes := some 30, price := some 500,
    link := none, categories := some 1, tags := some [1], user := some 99 }

/-- A full-update payload omitting the `tags` key (the §8 scenario, with the
required `categories` key supplied). -/
def ppPut : ProductPayload :=
  { title := some "Spagheti Carbonaro", time_minutes := some 25,
    price := some 500, link := none, categories := some 1, tags := none,
    user := none }

/-- A partial-update payload supplying only `title`. -/
def ppPatch : ProductPayload :=
  { title := some "Chicken Tika", time_minutes := none, price := none,
    link := none, categories := none, tags := none, user := none }

example : pyInt? "17" = some 17 := by decide
example : pyInt? "-4" = some (-4) := by decide
example : pyInt? "" = none := by decide
example : pyInt? "1a" = none := by decide
example : params_to_ints "1,2" = some [1, 2] := by decide
example : params_to_ints "1,x" = none := by decide
example : params_to_ints "1,,2" = none := by decide

/-! ### Helper lemmas -/

theorem mem_attr_get_queryset {rows : List AttrRow} {products : List Product}
    {referenced : AttrRow → Product → Bool} {u : Nat} {a : Bool} {r : AttrRow} :
    r ∈ BaseProductAttrViewset.get_queryset rows products referenced u a ↔
      r ∈ rows ∧ r.user = u ∧ (a = true → ∃ p ∈ products, referenced r p = true) := by
  cases a <;>
    simp [BaseProductAttrViewset.get_queryset, List.mem_dedup, List.mem_insertionSort,
      List.mem_filter, List.mem_flatMap, List.mem_map] <;>
    aesop

theorem sorted_attr_get_queryset (rows : List AttrRow) (products : List Product)
    (referenced : AttrRow → Product → Bool) (u : Nat) (a : Bool) :
    List.Sorted nameDesc
      (BaseProductAttrViewset.get_queryset rows products referenced u a) := by
  unfold BaseProductAttrViewset.get_queryset
  exact List.Pairwise.sublist (List.dedup_sublist _) (List.sorted_insertionSort nameDesc _)

theorem nodup_attr_get_queryset (rows : List AttrRow) (products : List Product)
    (referenced : AttrRow → Product → Bool) (u : Nat) (a : Bool) :
    (BaseProductAttrViewset.get_queryset rows products referenced u a).Nodup := by
  unfold BaseProductAttrViewset.get_queryset
  exact List.nodup_dedup _

theorem mem_apply_filters {products : List Product}
    {tag_ids? category_ids? : Option (List Int)} {u : Nat} {p : Product} :
    p ∈ ProductViewset.apply_filters products tag_ids? category_ids? u ↔
      p ∈ products ∧ p.user = u
      ∧ (∀ tag_ids, tag_ids? = some tag_ids →
          ∃ t ∈ p.tags, (t : Int) ∈ tag_ids)
      ∧ (∀ category_ids, category_ids? = some category_ids →
          ∃ c, p.categories = some c ∧ (c : Int) ∈ category_ids) := by
  cases tag_ids? <;> cases category_ids? <;>
    cases hc : p.categories <;>
      simp [ProductViewset.apply_filters, List.mem_filter, List.any_eq_true, hc,
        and_assoc] <;>
    tauto

/-! ### Claims -/

/-- C6: every request without valid authentication credentials to the
ownership-scoped collections — tag list/create, category list/create, and
the ownership-gated product route's list/create/retrieve/update — yields the
401-equivalent `unauthorized` response, carries no entity data, and leaves
the store unchanged. -/
theorem claim_C6 (store : Store) (assignedP tagsP categoriesP : Option String)
    (ap : AttrPayload) (pp : ProductPayload) (pk : Nat) (isPatch : Bool) :
    TagViewSet.list store none assignedP = .unauthorized
    ∧ TagViewSet.create store none ap = (.unauthorized, store)
    ∧ CategoryViewSet.list store none assignedP = .unauthorized
    ∧ CategoryViewSet.create store none ap = (.unauthorized, store)
    ∧ ProductViewset.list store none tagsP categoriesP = .unauthorized
    ∧ ProductViewset.create store none pp = (.unauthorized, store)
    ∧ ProductViewset.retrieve store none pk = .unauthorized
    ∧ ProductViewset.update store none pk pp isPatch = (.unauthorized, store) :=
  ⟨rfl, rfl, rfl, rfl, rfl, rfl, rfl, rfl⟩

/-- C10: the route registered at `products` (`MyProductViewset`) is read-only
and applies no ownership filtering: its list returns every product of every
user, and its detail returns any product by id even when its owner differs
from the caller. -/
theorem claim_C10 (store : Store) (A B : Nat) (p : Product)
    (hp : p ∈ store.products) (howner : p.user = A) (hAB : A ≠ B) :
    MyProductViewset.list store (some B) = .ok store.products
    ∧ p ∈ MyProductViewset.get_queryset store (some B)
    ∧ ∃ q, MyProductViewset.retrieve store (some B) p.id = .ok q ∧ q.id = p.id := by
  refine ⟨rfl, hp, ?_⟩
  have hs : (store.products.find? (fun q => q.id == p.id)).isSome :=
    List.find?_isSome.mpr ⟨p, hp, by simp⟩
  obtain ⟨q, hq⟩ := Option.isSome_iff_exists.mp hs
  have hqid := List.find?_some hq
  simp only [beq_iff_eq] at hqid
  refine ⟨q, ?_, hqid⟩
  simp [MyProductViewset.retrieve, MyProductViewset.get_queryset, hq]

theorem claim_C10_witness :
    MyProductViewset.list wStore (some 2) = .ok wStore.products
    ∧ (⟨1, 1, "Pasta", 10, 500, "", some 1, [1], none⟩ : Product)
        ∈ MyProductViewset.get_queryset wStore (some 2)
    ∧ ∃ q, MyProductViewset.retrieve wStore (some 2) 1 = .ok q ∧ q.id = 1 :=
  claim_C10 wStore 1 2 ⟨1, 1, "Pasta", 10, 500, "", some 1, [1], none⟩
    (by decide) rfl (by decide)

/-- C8: the claim fails on the code.  An authenticated product create whose
payload carries a valid title, time-to-prepare and price but no category
identifier is refused with a 400 `categories: This field is required.` and
nothing is persisted: `ProductSerializer` declares `categories` as a
`PrimaryKeyRelatedField` with neither `required=False` nor `allow_null`,
although the model column is `null=True` and the repository's own
`test_create_basic_product` expects the create to succeed. -/
theorem claim_C8_code_behavior :
    ProductViewset.create wStore (some 1) payloadC8
      = (.badRequest [("categories", "This field is required.")], wStore) := by
  rfl

theorem validate_product_title_error (store : Store) (pp : ProductPayload)
    (b : Bool) (e : String × String) (h : validate_title pp.title b = .error e) :
    ∃ errs, validate_product store pp b = .error errs ∧ e ∈ errs := by
  unfold validate_product
  rw [h]
  cases h2 : validate_time_minutes pp.time_minutes b <;>
  cases h3 : validate_price pp.price b <;>
  cases h4 : validate_link pp.link <;>
  cases h5 : validate_categories store.categories pp.categories b <;>
  cases h6 : validate_tags store.tags pp.tags b <;>
  simp [fieldErrs]

/-- C9: a create on Tag, Category or Product whose required name/title is the
empty string is refused with a per-field 400 error set, nothing is persisted,
and the row count is unchanged. -/
theorem claim_C9 (store : Store) (u : Nat) (ap : AttrPayload) (pp : ProductPayload)
    (hname : ap.name = some "") (htitle : pp.title = some "") :
    TagViewSet.create store (some u) ap
        = (.badRequest [("name", "This field may not be blank.")], store)
    ∧ CategoryViewSet.create store (some u) ap
        = (.badRequest [("name", "This field may not be blank.")], store)
    ∧ (∃ errs, ProductViewset.create store (some u) pp = (.badRequest errs, store)
        ∧ ("title", "This field may not be blank.") ∈ errs)
    ∧ (TagViewSet.create store (some u) ap).2.tags.length = store.tags.length
    ∧ (CategoryViewSet.create store (some u) ap).2.categories.length
        = store.categories.length
    ∧ (ProductViewset.create store (some u) pp).2.products.length
        = store.products.length := by
  have hv : validate_attr ap = .error [("name", "This field may not be blank.")] := by
    simp [validate_attr, hname]
  have ht : validate_title pp.title false
      = .error ("title", "This field may not be blank.") := by
    simp [validate_title, htitle]
  obtain ⟨errs, herrs, hmem⟩ := validate_product_title_error store pp false _ ht
  refine ⟨?_, ?_, ⟨errs, ?_, hmem⟩, ?_, ?_, ?_⟩ <;>
    simp [TagViewSet.create, CategoryViewSet.create, ProductViewset.create,
      BaseProductAttrViewset.create, hv, herrs]

theorem claim_C9_witness :
    TagViewSet.create wStore (some 1) apBlank
        = (.badRequest [("name", "This field may not be blank.")], wStore)
    ∧ CategoryViewSet.create wStore (some 1) apBlank
        = (.badRequest [("name", "This field may not be blank.")], wStore)
    ∧ (∃ errs, ProductViewset.create wStore (some 1) ppBlankTitle
        = (.badRequest errs, wStore)
        ∧ ("title", "This field may not be blank.") ∈ errs)
    ∧ (TagViewSet.create wStore (some 1) apBlank).2.tags.length = wStore.tags.length
    ∧ (CategoryViewSet.create wStore (some 1) apBlank).2.categories.length
        = wStore.categories.length
    ∧ (ProductViewset.create wStore (some 1) ppBlankTitle).2.products.length
        = wStore.products.length :=
  claim_C9 wStore 1 apBlank ppBlankTitle rfl rfl

/-- C7: every successful create of a Tag, Category or Product persists the
row with the owning user equal to the authenticated caller, whatever `user`
value the payload smuggles (the serializers have no `user` field), and no
update ever changes the owner: the updated row keeps the owner of the stored
row it came from. -/
theorem claim_C7 (store : Store) (u pk : Nat) (ap : AttrPayload)
    (pp pp2 : ProductPayload) (isPatch : Bool)
    (trow crow : AttrRow) (prow q : Product) (st1 st2 st3 st4 : Store)
    (h1 : TagViewSet.create store (some u) ap = (.created trow, st1))
    (h2 : CategoryViewSet.create store (some u) ap = (.created crow, st2))
    (h3 : ProductViewset.create store (some u) pp = (.created prow, st3))
    (h4 : ProductViewset.update store (some u) pk pp2 isPatch = (.ok q, st4)) :
    trow.user = u ∧ crow.user = u ∧ prow.user = u ∧ q.user = u
    ∧ ∃ p, p ∈ store.products ∧ p.id = pk ∧ p.user = q.user := by
  have e1 : trow.user = u := by
    rcases hv : validate_attr ap with errs | n <;>
      simp [TagViewSet.create, BaseProductAttrViewset.create, hv] at h1
    obtain ⟨hrow, -⟩ := h1
    rw [← hrow]
  have e2 : crow.user = u := by
    rcases hv : validate_attr ap with errs | n <;>
      simp [CategoryViewSet.create, BaseProductAttrViewset.create, hv] at h2
    obtain ⟨hrow, -⟩ := h2
    rw [← hrow]
  have e3 : prow.user = u := by
    rcases hv : validate_product store pp false with errs | v <;>
      simp [ProductViewset.create, hv] at h3
    obtain ⟨hrow, -⟩ := h3
    rw [← hrow]
    rfl
  have hq0 : ProductViewset.get_queryset store u none none
      = some (store.products.filter (fun p => p.user == u)) := rfl
  rcases hf : (store.products.filter (fun p => p.user == u)).find? (fun p => p.id == pk)
      with _ | p <;>
    simp only [ProductViewset.update, hq0, hf] at h4
  · exact absurd h4 (by simp)
  rcases hv2 : validate_product store pp2 isPatch with errs | v <;>
    simp [hv2] at h4
  obtain ⟨hq4, -⟩ := h4
  have hqu : q.user = p.user := by rw [← hq4]; rfl
  have hp := List.mem_of_find?_eq_some hf
  have hpid := List.find?_some hf
  simp only [List.mem_filter, beq_iff_eq] at hp hpid
  exact ⟨e1, e2, e3, by rw [hqu]; exact hp.2, ⟨p, hp.1, hpid, hqu.symm⟩⟩

theorem claim_C7_witness :
    (⟨4, "Dinner", 1⟩ : AttrRow).user = 1 ∧ (⟨3, "Dinner", 1⟩ : AttrRow).user = 1
    ∧ (⟨4, 1, "Cake", 30, 500, "", some 1, [1], none⟩ : Product).user = 1
    ∧ (⟨1, 1, "Chicken Tika", 10, 500, "", some 1, [1], none⟩ : Product).user = 1
    ∧ ∃ p, p ∈ wStore.products ∧ p.id = 1
        ∧ p.user = (⟨1, 1, "Chicken Tika", 10, 500, "", some 1, [1], none⟩ : Product).user :=
  claim_C7 wStore 1 1 apSmuggle ppSmuggle ppPatch true
    ⟨4, "Dinner", 1⟩ ⟨3, "Dinner", 1⟩
    ⟨4, 1, "Cake", 30, 500, "", some 1, [1], none⟩
    ⟨1, 1, "Chicken Tika", 10, 500, "", some 1, [1], none⟩
    (TagViewSet.create wStore (some 1) apSmuggle).2
    (CategoryViewSet.create wStore (some 1) apSmuggle).2
    (ProductViewset.create wStore (some 1) ppSmuggle).2
    (ProductViewset.update wStore (some 1) 1 ppPatch true).2
    (by decide) (by decide) (by decide) (by decide)

theorem int_list?_eq_none {xs : List (List Char)} {x : List Char}
    (hx : x ∈ xs) (hbad : pyIntChars? x = none) : int_list? xs = none := by
  induction xs with
  | nil => cases hx
  | cons y ys ih =>
    rcases List.mem_cons.mp hx with h | h
    · subst h
      simp [int_list?, hbad]
    · have hys := ih h
      cases hpy : pyIntChars? y <;> simp [int_list?, hpy, hys]

/-- C4: a product list request whose `tags` or `categories` parameter is a
non-empty string containing a non-integer identifier fails as a whole (the
`ValueError` of `int` escapes `_params_to_ints`): no integer list is
produced, the queryset computation aborts, and the request ends in a
5xx-equivalent — the malformed identifier is never dropped and the remaining
identifiers are never applied on their own. -/
theorem claim_C4 (store : Store) (u : Nat) (s : String) (other : Option String)
    (x : List Char) (hx : x ∈ splitOnComma s.data) (hbad : pyIntChars? x = none)
    (hne : s ≠ "") :
    params_to_ints s = none
    ∧ ProductViewset.get_queryset store u (some s) other = none
    ∧ ProductViewset.get_queryset store u other (some s) = none
    ∧ ProductViewset.list store (some u) (some s) other = .serverError
    ∧ ProductViewset.list store (some u) other (some s) = .serverError := by
  have hp : params_to_ints s = none := int_list?_eq_none hx hbad
  have hpp : ProductViewset.parseParam (some s) = none := by
    simp [ProductViewset.parseParam, truthyParam, hne, hp]
  have g1 : ProductViewset.get_queryset store u (some s) other = none := by
    cases hpo : ProductViewset.parseParam other <;>
      simp [ProductViewset.get_queryset, hpp, hpo]
  have g2 : ProductViewset.get_queryset store u other (some s) = none := by
    cases hpo : ProductViewset.parseParam other <;>
      simp [ProductViewset.get_queryset, hpp, hpo]
  exact ⟨hp, g1, g2, by simp [ProductViewset.list, g1], by simp [ProductViewset.list, g2]⟩

theorem claim_C4_witness :
    params_to_ints "1,x" = none
    ∧ ProductViewset.get_queryset wStore 1 (some "1,x") none = none
    ∧ ProductViewset.get_queryset wStore 1 none (some "1,x") = none
    ∧ ProductViewset.list wStore (some 1) (some "1,x") none = .serverError
    ∧ ProductViewset.list wStore (some 1) none (some "1,x") = .serverError :=
  claim_C4 wStore 1 "1,x" none ['x'] (by decide) (by decide) (by decide)

theorem product_queryset_owned {store : Store} {u : Nat}
    {tagsP categoriesP : Option String} {qs : List Product}
    (h : ProductViewset.get_queryset store u tagsP categoriesP = some qs) :
    ∀ p ∈ qs, p ∈ store.products ∧ p.user = u := by
  cases hpt : ProductViewset.parseParam tagsP <;>
    cases hpc : ProductViewset.parseParam categoriesP <;>
      simp [ProductViewset.get_queryset, hpt, hpc] at h
  intro p hp
  rw [← h] at hp
  have := mem_apply_filters.mp hp
  exact ⟨this.1, this.2.1⟩

/-- C1: for distinct users A and B, a list request by B on the
ownership-scoped collections (tags, categories, the ownership-gated product
route) never contains an entity owned by A, and B's detail request for the
id of A's product is a 404 `notFound`. -/
theorem claim_C1 (store : Store) (A B : Nat) (hAB : A ≠ B)
    (assignedP tagsP categoriesP : Option String)
    (t c : AttrRow) (pr p : Product)
    (tres cres : List AttrRow) (pres : List Product)
    (ht : TagViewSet.list store (some B) assignedP = .ok tres)
    (hc : CategoryViewSet.list store (some B) assignedP = .ok cres)
    (hl : ProductViewset.list store (some B) tagsP categoriesP = .ok pres)
    (htA : t.user = A) (hcA : c.user = A) (hprA : pr.user = A)
    (hp : p ∈ store.products) (hpA : p.user = A)
    (huniq : ∀ q ∈ store.products, q.id = p.id → q = p) :
    t ∉ tres ∧ c ∉ cres ∧ pr ∉ pres
    ∧ ProductViewset.retrieve store (some B) p.id = .notFound := by
  refine ⟨?_, ?_, ?_, ?_⟩
  · cases hpy : pyInt? (assignedP.getD "0") <;>
      simp [TagViewSet.list, BaseProductAttrViewset.list, hpy] at ht
    intro hmem
    rw [← ht] at hmem
    have := (mem_attr_get_queryset.mp hmem).2.1
    exact hAB (htA.symm.trans this)
  · cases hpy : pyInt? (assignedP.getD "0") <;>
      simp [CategoryViewSet.list, BaseProductAttrViewset.list, hpy] at hc
    intro hmem
    rw [← hc] at hmem
    have := (mem_attr_get_queryset.mp hmem).2.1
    exact hAB (hcA.symm.trans this)
  · cases hgq : ProductViewset.get_queryset store B tagsP categoriesP <;>
      simp [ProductViewset.list, hgq] at hl
    intro hmem
    rw [← hl] at hmem
    have := (product_queryset_owned hgq pr hmem).2
    exact hAB (hprA.symm.trans this)
  · have hq0 : ProductViewset.get_queryset store B none none
        = some (store.products.filter (fun q => q.user == B)) := rfl
    cases hf : (store.products.filter (fun q => q.user == B)).find? (fun q => q.id == p.id) with
    | none => simp [ProductViewset.retrieve, hq0, hf]
    | some q =>
      exfalso
      have hqmem := List.mem_of_find?_eq_some hf
      have hqid := List.find?_some hf
      simp only [List.mem_filter, beq_iff_eq] at hqmem hqid
      have hqp : q = p := huniq q hqmem.1 hqid
      exact hAB (hpA.symm.trans (hqp ▸ hqmem.2))

theorem claim_C1_witness :
    (⟨1, "Vegan", 1⟩ : AttrRow) ∉ [(⟨2, "Zest", 2⟩ : AttrRow)]
    ∧ (⟨1, "Drinks", 1⟩ : AttrRow) ∉ [(⟨2, "Food", 2⟩ : AttrRow)]
    ∧ (⟨1, 1, "Pasta", 10, 500, "", some 1, [1], none⟩ : Product)
        ∉ [(⟨2, 2, "Soup", 5, 300, "", some 2, [2], none⟩ : Product)]
    ∧ ProductViewset.retrieve wStore (some 2) 1 = .notFound :=
  claim_C1 wStore 1 2 (by decide) none none none
    ⟨1, "Vegan", 1⟩ ⟨1, "Drinks", 1⟩
    ⟨1, 1, "Pasta", 10, 500, "", some 1, [1], none⟩
    ⟨1, 1, "Pasta", 10, 500, "", some 1, [1], none⟩
    [⟨2, "Zest", 2⟩] [⟨2, "Food", 2⟩]
    [⟨2, 2, "Soup", 5, 300, "", some 2, [2], none⟩]
    (by decide) (by decide) (by decide) rfl rfl rfl (by decide) rfl (by decide)

/-- C3: an authenticated product list with `tags` and/or `categories`
filters returns exactly the caller's products whose tag set intersects the
given tag ids (when the tags filter is given) and whose category is among
the given category ids (when the categories filter is given): OR within each
identifier list, AND between the two filters when both are supplied. -/
theorem claim_C3 (store : Store) (u : Nat) (ts cs : String)
    (tag_ids cat_ids : List Int)
    (hts : ts ≠ "") (hcs : cs ≠ "")
    (hpt : params_to_ints ts = some tag_ids)
    (hpc : params_to_ints cs = some cat_ids) :
    (∃ qs, ProductViewset.get_queryset store u (some ts) (some cs) = some qs
      ∧ ProductViewset.list store (some u) (some ts) (some cs) = .ok qs
      ∧ ∀ p, p ∈ qs ↔ p ∈ store.products ∧ p.user = u
          ∧ (∃ tid ∈ p.tags, (tid : Int) ∈ tag_ids)
          ∧ (∃ cid, p.categories = some cid ∧ (cid : Int) ∈ cat_ids))
    ∧ (∃ qs, ProductViewset.get_queryset store u (some ts) none = some qs
      ∧ ProductViewset.list store (some u) (some ts) none = .ok qs
      ∧ ∀ p, p ∈ qs ↔ p ∈ store.products ∧ p.user = u
          ∧ ∃ tid ∈ p.tags, (tid : Int) ∈ tag_ids)
    ∧ (∃ qs, ProductViewset.get_queryset store u none (some cs) = some qs
      ∧ ProductViewset.list store (some u) none (some cs) = .ok qs
      ∧ ∀ p, p ∈ qs ↔ p ∈ store.products ∧ p.user = u
          ∧ ∃ cid, p.categories = some cid ∧ (cid : Int) ∈ cat_ids) := by
  have hppt : ProductViewset.parseParam (some ts) = some (some tag_ids) := by
    simp [ProductViewset.parseParam, truthyParam, hts, hpt]
  have hppc : ProductViewset.parseParam (some cs) = some (some cat_ids) := by
    simp [ProductViewset.parseParam, truthyParam, hcs, hpc]
  have hppn : ProductViewset.parseParam none = some none := rfl
  have g1 : ProductViewset.get_queryset store u (some ts) (some cs)
      = some (ProductViewset.apply_filters store.products (some tag_ids) (some cat_ids) u) := by
    simp [ProductViewset.get_queryset, hppt, hppc]
  have g2 : ProductViewset.get_queryset store u (some ts) none
      = some (ProductViewset.apply_filters store.products (some tag_ids) none u) := by
    simp [ProductViewset.get_queryset, hppt, hppn]
  have g3 : ProductViewset.get_queryset store u none (some cs)
      = some (ProductViewset.apply_filters store.products none (some cat_ids) u) := by
    simp [ProductViewset.get_queryset, hppn, hppc]
  refine ⟨⟨_, g1, by simp [ProductViewset.list, g1], ?_⟩,
          ⟨_, g2, by simp [ProductViewset.list, g2], ?_⟩,
          ⟨_, g3, by simp [ProductViewset.list, g3], ?_⟩⟩ <;>
    intro p <;> rw [mem_apply_filters] <;> simp

theorem claim_C3_witness :
    (∃ qs, ProductViewset.get_queryset wStore 1 (some "1,2") (some "1") = some qs
      ∧ ProductViewset.list wStore (some 1) (some "1,2") (some "1") = .ok qs
      ∧ ∀ p, p ∈ qs ↔ p ∈ wStore.products ∧ p.user = 1
          ∧ (∃ tid ∈ p.tags, (tid : Int) ∈ ([1, 2] : List Int))
          ∧ (∃ cid, p.categories = some cid ∧ (cid : Int) ∈ ([1] : List Int)))
    ∧ (∃ qs, ProductViewset.get_queryset wStore 1 (some "1,2") none = some qs
      ∧ ProductViewset.list wStore (some 1) (some "1,2") none = .ok qs
      ∧ ∀ p, p ∈ qs ↔ p ∈ wStore.products ∧ p.user = 1
          ∧ ∃ tid ∈ p.tags, (tid : Int) ∈ ([1, 2] : List Int))
    ∧ (∃ qs, ProductViewset.get_queryset wStore 1 none (some "1") = some qs
      ∧ ProductViewset.list wStore (some 1) none (some "1") = .ok qs
      ∧ ∀ p, p ∈ qs ↔ p ∈ wStore.products ∧ p.user = 1
          ∧ ∃ cid, p.categories = some cid ∧ (cid : Int) ∈ ([1] : List Int)) :=
  claim_C3 wStore 1 "1,2" "1" [1, 2] [1]
    (by decide) (by decide) (by decide) (by decide)

/-- C5: every tag and category list response contains only the caller's
rows, ordered by name descending with no duplicate rows; with
`assigned_only=1` the response is exactly the caller's tags/categories
referenced by at least one product, still duplicate-free. -/
theorem claim_C5 (store : Store) (u : Nat) (assignedP : Option String)
    (tres cres tres1 cres1 : List AttrRow)
    (ht : TagViewSet.list store (some u) assignedP = .ok tres)
    (hc : CategoryViewSet.list store (some u) assignedP = .ok cres)
    (ht1 : TagViewSet.list store (some u) (some "1") = .ok tres1)
    (hc1 : CategoryViewSet.list store (some u) (some "1") = .ok cres1) :
    ((∀ r ∈ tres, r.user = u) ∧ List.Sorted nameDesc tres ∧ tres.Nodup)
    ∧ ((∀ r ∈ cres, r.user = u) ∧ List.Sorted nameDesc cres ∧ cres.Nodup)
    ∧ (tres1.Nodup ∧ ∀ r, r ∈ tres1 ↔ r ∈ store.tags ∧ r.user = u
        ∧ ∃ p ∈ store.products, r.id ∈ p.tags)
    ∧ (cres1.Nodup ∧ ∀ r, r ∈ cres1 ↔ r ∈ store.categories ∧ r.user = u
        ∧ ∃ p ∈ store.products, p.categories = some r.id) := by
  have hone : pyInt? "1" = some 1 := by decide
  refine ⟨?_, ?_, ?_, ?_⟩
  · cases hpy : pyInt? (assignedP.getD "0") <;>
      simp [TagViewSet.list, BaseProductAttrViewset.list, hpy] at ht
    subst ht
    exact ⟨fun r hr => (mem_attr_get_queryset.mp hr).2.1,
      sorted_attr_get_queryset _ _ _ _ _, nodup_attr_get_queryset _ _ _ _ _⟩
  · cases hpy : pyInt? (assignedP.getD "0") <;>
      simp [CategoryViewSet.list, BaseProductAttrViewset.list, hpy] at hc
    subst hc
    exact ⟨fun r hr => (mem_attr_get_queryset.mp hr).2.1,
      sorted_attr_get_queryset _ _ _ _ _, nodup_attr_get_queryset _ _ _ _ _⟩
  · simp [TagViewSet.list, BaseProductAttrViewset.list, hone] at ht1
    subst ht1
    refine ⟨nodup_attr_get_queryset _ _ _ _ _, fun r => ?_⟩
    rw [mem_attr_get_queryset]
    simp [tagReferenced, and_assoc]
  · simp [CategoryViewSet.list, BaseProductAttrViewset.list, hone] at hc1
    subst hc1
    refine ⟨nodup_attr_get_queryset _ _ _ _ _, fun r => ?_⟩
    rw [mem_attr_get_queryset]
    simp [categoryReferenced, and_assoc]

theorem claim_C5_witness :
    ((∀ r ∈ [(⟨1, "Vegan", 1⟩ : AttrRow), ⟨3, "Unused", 1⟩], r.user = 1)
      ∧ List.Sorted nameDesc [(⟨1, "Vegan", 1⟩ : AttrRow), ⟨3, "Unused", 1⟩]
      ∧ ([(⟨1, "Vegan", 1⟩ : AttrRow), ⟨3, "Unused", 1⟩]).Nodup)
    ∧ ((∀ r ∈ [(⟨1, "Drinks", 1⟩ : AttrRow)], r.user = 1)
      ∧ List.Sorted nameDesc [(⟨1, "Drinks", 1⟩ : AttrRow)]
      ∧ ([(⟨1, "Drinks", 1⟩ : AttrRow)]).Nodup)
    ∧ (([(⟨1, "Vegan", 1⟩ : AttrRow)]).Nodup
      ∧ ∀ r, r ∈ [(⟨1, "Vegan", 1⟩ : AttrRow)] ↔ r ∈ wStore.tags ∧ r.user = 1
          ∧ ∃ p ∈ wStore.products, r.id ∈ p.tags)
    ∧ (([(⟨1, "Drinks", 1⟩ : AttrRow)]).Nodup
      ∧ ∀ r, r ∈ [(⟨1, "Drinks", 1⟩ : AttrRow)] ↔ r ∈ wStore.categories ∧ r.user = 1
          ∧ ∃ p ∈ wStore.products, p.categories = some r.id) :=
  claim_C5 wStore 1 none
    [⟨1, "Vegan", 1⟩, ⟨3, "Unused", 1⟩] [⟨1, "Drinks", 1⟩]
    [⟨1, "Vegan", 1⟩] [⟨1, "Drinks", 1⟩]
    (by decide) (by decide) (by decide) (by decide)

/-- C2: on an existing product of the caller, a PUT full-update whose
otherwise-valid payload omits the `tags` key succeeds and leaves the product
with zero tags (the relation is overwritten to empty, not merged), while a
PATCH partial-update supplying only `title` changes the title and leaves
every omitted field — `tags` included — unchanged. -/
theorem claim_C2 (store : Store) (u pk : Nat) (p : Product)
    (putP patchP : ProductPayload) (ttl ttl2 : String) (m pc : Int) (cid : Nat)
    (hfind : (store.products.filter (fun q => q.user == u)).find? (fun q => q.id == pk)
        = some p)
    (h1 : putP.tags = none) (h2 : putP.title = some ttl) (h3 : ttl ≠ "")
    (h4 : ttl.length ≤ 255) (h5 : putP.time_minutes = some m)
    (h6 : putP.price = some pc) (h7 : pc.natAbs ≤ 99999)
    (h8 : putP.link = none) (h9 : putP.categories = some cid)
    (h10 : store.categories.any (fun c => c.id == cid) = true)
    (h11 : patchP.title = some ttl2) (h12 : ttl2 ≠ "") (h13 : ttl2.length ≤ 255)
    (h14 : patchP.time_minutes = none) (h15 : patchP.price = none)
    (h16 : patchP.link = none) (h17 : patchP.categories = none)
    (h18 : patchP.tags = none) :
    (∃ q st, ProductViewset.update store (some u) pk putP false = (.ok q, st)
      ∧ q.tags = [] ∧ q.title = ttl ∧ q.time_minutes = m ∧ q.price = pc
      ∧ q.categories = some cid ∧ q.user = p.user)
    ∧ (∃ q st, ProductViewset.update store (some u) pk patchP true = (.ok q, st)
      ∧ q.title = ttl2 ∧ q.time_minutes = p.time_minutes ∧ q.price = p.price
      ∧ q.link = p.link ∧ q.categories = p.categories ∧ q.tags = p.tags
      ∧ q.user = p.user) := by
  have vt : validate_title putP.title false = .ok (some ttl) := by
    rw [h2]
    simp only [validate_title]
    rw [if_neg h3, if_neg (Nat.not_lt.mpr h4)]
  have vtm : validate_time_minutes putP.time_minutes false = .ok (some m) := by
    rw [h5]
    rfl
  have vpr : validate_price putP.price false = .ok (some pc) := by
    rw [h6]
    simp only [validate_price]
    rw [if_neg (Nat.not_lt.mpr h7)]
  have vlk : validate_link putP.link = .ok none := by
    rw [h8]
    rfl
  have vct : validate_categories store.categories putP.categories false
      = .ok (some cid) := by
    rw [h9]
    simp only [validate_categories]
    rw [if_pos h10]
  have vtg : validate_tags store.tags putP.tags false = .ok (some []) := by
    rw [h1]
    rfl
  have hvput : validate_product store putP false
      = .ok ⟨some ttl, some m, some pc, none, some cid, some []⟩ := by
    unfold validate_product
    rw [vt, vtm, vpr, vlk, vct, vtg]
  have wt : validate_title patchP.title true = .ok (some ttl2) := by
    rw [h11]
    simp only [validate_title]
    rw [if_neg h12, if_neg (Nat.not_lt.mpr h13)]
  have wtm : validate_time_minutes patchP.time_minutes true = .ok none := by
    rw [h14]
    rfl
  have wpr : validate_price patchP.price true = .ok none := by
    rw [h15]
    rfl
  have wlk : validate_link patchP.link = .ok none := by
    rw [h16]
    rfl
  have wct : validate_categories store.categories patchP.categories true
      = .ok none := by
    rw [h17]
    rfl
  have wtg : validate_tags store.tags patchP.tags true = .ok none := by
    rw [h18]
    rfl
  have hvpatch : validate_product store patchP true
      = .ok ⟨some ttl2, none, none, none, none, none⟩ := by
    unfold validate_product
    rw [wt, wtm, wpr, wlk, wct, wtg]
  have hq0 : ProductViewset.get_queryset store u none none
      = some (store.products.filter (fun q => q.user == u)) := rfl
  constructor
  · refine ⟨ProductSerializer.update p ⟨some ttl, some m, some pc, none, some cid, some []⟩,
      {store with products := store.products.map (fun q =>
        if q.id == pk then
          ProductSerializer.update p ⟨some ttl, some m, some pc, none, some cid, some []⟩
        else q)},
      ?_, rfl, rfl, rfl, rfl, rfl, rfl⟩
    simp only [ProductViewset.update, hq0, hfind, hvput]
  · refine ⟨ProductSerializer.update p ⟨some ttl2, none, none, none, none, none⟩,
      {store with products := store.products.map (fun q =>
        if q.id == pk then
          ProductSerializer.update p ⟨some ttl2, none, none, none, none, none⟩
        else q)},
      ?_, rfl, rfl, rfl, rfl, rfl, rfl, rfl⟩
    simp only [ProductViewset.update, hq0, hfind, hvpatch]

theorem claim_C2_witness :
    (∃ q st, ProductViewset.update wStore (some 1) 1 ppPut false = (.ok q, st)
      ∧ q.tags = [] ∧ q.title = "Spagheti Carbonaro" ∧ q.time_minutes = 25
      ∧ q.price = 500 ∧ q.categories = some 1 ∧ q.user = 1)
    ∧ (∃ q st, ProductViewset.update wStore (some 1) 1 ppPatch true = (.ok q, st)
      ∧ q.title = "Chicken Tika" ∧ q.time_minutes = 10 ∧ q.price = 500
      ∧ q.link = "" ∧ q.categories = some 1 ∧ q.tags = [1] ∧ q.user = 1) :=
  claim_C2 wStore 1 1 ⟨1, 1, "Pasta", 10, 500, "", some 1, [1], none⟩ ppPut ppPatch
    "Spagheti Carbonaro" "Chicken Tika" 25 500 1
    (by decide) rfl rfl (by decide) (by decide) rfl rfl (by decide) rfl rfl
    (by decide) rfl (by decide) (by decide) rfl rfl rfl rfl rfl
